import Mathlib

/-!
Shallow embedding of `ray_lightning/examples/ray_ddp_example.py`.

The script wires a Lightning-style MNIST classifier to a Ray distributed
backend and an optional Ray Tune hyperparameter search.  We embed:

* Python config dictionaries as association lists of `String × PyVal`
  (`[]`-access raising `KeyError` becomes `Except String`);
* `torch.utils.data.random_split` over a dataset of length `n`: torch draws
  `randperm(n)` from the given generator and hands each split a contiguous
  slice of that index permutation.  The generator pipeline (a fresh
  `torch.Generator().manual_seed(0)` on every call) is embedded as a family
  `rp : Nat → Nat → List Nat` mapping a seed and a length to the permutation
  torch would produce; theorems assume only that `rp 0 n` is a permutation of
  `List.range n`, which is torch's contract for `randperm`;
* `DataLoader(..., drop_last=True)` batching as `dropLastBatches`;
* the trainer / tune / ray entry points as descriptors of the single call
  each of them makes into the external libraries, and (for the
  error-propagation claim) as straight-line `Except` programs whose library
  calls are oracles.
-/

/-- A Python scalar value as it appears in the config dictionaries of the
script: an int, a float (embedded as an exact rational), or a string. -/
inductive PyVal where
  | int (i : Int)
  | float (q : ℚ)
  | str (s : String)
  deriving DecidableEq, Repr

/-- A Python config dictionary `{name: value}` as used by the script. -/
abbrev Config := List (String × PyVal)

/-- Python `config[key]`: the value when the key is present, otherwise a
`KeyError` carrying the missing key (embedded as `.error key`). -/
def Config.getItem (config : Config) (key : String) : Except String PyVal :=
  match config.find? (fun p => p.1 == key) with
  | some p => .ok p.2
  | none => .error key

/-- Python `int(b)` on a bool, as used for `gpus=int(use_gpu)` and the
`extra_gpu` resource request. -/
def pyBoolInt : Bool → Int
  | true => 1
  | false => 0

/-- `torch.utils.data.random_split(dataset, [len1, len2], generator)`:
torch draws the permutation `perm = randperm(len1 + len2)` from the
generator and returns the subsets holding indices `perm[0:len1]` and
`perm[len1:len1+len2]`. -/
def random_split2 (perm : List Nat) (len1 len2 : Nat) : List Nat × List Nat :=
  (perm.take len1, (perm.drop len1).take len2)

/-- The state of an `MNISTClassifier` object after `__init__` succeeded:
the superclass (`LightningMNISTClassifier`) fields plus the `batch_size`
stored by the subclass `__init__`. -/
structure MNISTClassifier where
  layer_1 : PyVal
  layer_2 : PyVal
  lr : PyVal
  data_dir : Option String
  batch_size : PyVal
  deriving DecidableEq, Repr

/-- Modelled from the spec: `LightningMNISTClassifier.__init__`
(`ray_lightning.tests.utils`, repository code not under `src/`).  The spec
describes the config as "a configuration mapping of hyperparameter names to
values (layer widths, learning rate, batch size)", so the superclass reads
the two layer widths and the learning rate from the mapping with `[]`-access
(raising `KeyError` when a key is absent) and stores `data_dir`. -/
def superInit (config : Config) (data_dir : Option String) :
    Except String (PyVal × PyVal × PyVal) :=
  match config.getItem "layer_1" with
  | .error k => .error k
  | .ok l1 =>
    match config.getItem "layer_2" with
    | .error k => .error k
    | .ok l2 =>
      match config.getItem "lr" with
      | .error k => .error k
      | .ok lr => .ok (l1, l2, lr)

/-- `MNISTClassifier.__init__(config, data_dir)`: run the superclass
`__init__`, then store `self.batch_size = config["batch_size"]`.  A missing
key surfaces as `.error key` (Python `KeyError(key)`). -/
def MNISTClassifier.init (config : Config) (data_dir : Option String) :
    Except String MNISTClassifier :=
  match superInit config data_dir with
  | .error k => .error k
  | .ok (l1, l2, lr) =>
    match config.getItem "batch_size" with
    | .error k => .error k
    | .ok bs =>
      .ok { layer_1 := l1, layer_2 := l2, lr := lr,
            data_dir := data_dir, batch_size := bs }

/-- The keyword arguments of a `DataLoader(...)` call made by the script,
with the dataset it wraps represented by its list of through-indices into
the underlying MNIST dataset. -/
structure DataLoaderCfg where
  dataset_indices : List Nat
  batch_size : PyVal
  num_workers : Nat
  drop_last : Bool
  pin_memory : Bool
  deriving DecidableEq, Repr

/-- `MNISTClassifier.train_dataloader`: with `train_length = len(dataset) = n`,
split via `random_split(dataset, [n - 5000, 5000], generator=
torch.Generator().manual_seed(0))`, keep the FIRST subset, and wrap it in
`DataLoader(..., batch_size=self.batch_size, num_workers=1, drop_last=True,
pin_memory=True)`.  `rp` embeds `randperm` drawn from a generator with the
given seed (the call seeds a fresh generator with 0). -/
def MNISTClassifier.train_dataloader (c : MNISTClassifier)
    (rp : Nat → Nat → List Nat) (n : Nat) : DataLoaderCfg :=
  { dataset_indices := (random_split2 (rp 0 n) (n - 5000) 5000).1
    batch_size := c.batch_size
    num_workers := 1
    drop_last := true
    pin_memory := true }

/-- `MNISTClassifier.val_dataloader`: same fresh seed-0 split of the same
dataset as `train_dataloader`, keeping the SECOND subset. -/
def MNISTClassifier.val_dataloader (c : MNISTClassifier)
    (rp : Nat → Nat → List Nat) (n : Nat) : DataLoaderCfg :=
  { dataset_indices := (random_split2 (rp 0 n) (n - 5000) 5000).2
    batch_size := c.batch_size
    num_workers := 1
    drop_last := true
    pin_memory := true }

/-- The batches yielded by a sequential `DataLoader` with `drop_last=True`
over items `xs` and a positive batch size `bs`: consecutive chunks of
exactly `bs` items; a trailing partial chunk is dropped. -/
def dropLastBatches (bs : Nat) (xs : List α) : List (List α) :=
  if h : 0 < bs ∧ bs ≤ xs.length then
    xs.take bs :: dropLastBatches bs (xs.drop bs)
  else []
termination_by xs.length
decreasing_by
  simp only [List.length_drop]
  omega

/-- A `TuneReportCallback(metrics, on=...)` as constructed by the script
(`on_event` embeds the `on=` keyword argument; `on` is reserved in Lean). -/
structure CallbackCfg where
  metrics : List (String × String)
  on_event : String
  deriving DecidableEq, Repr

/-- The metrics dictionary the script passes to `TuneReportCallback`. -/
def tuneMetrics : List (String × String) :=
  [("loss", "ptl/val_loss"), ("acc", "ptl/val_accuracy")]

/-- The keyword arguments of the single `pl.Trainer(...)` + `trainer.fit`
pipeline that `train_mnist` performs: the model's constructor arguments, the
trainer arguments, and the `RayPlugin(num_workers=..., use_gpu=...)`. -/
structure TrainerCall where
  model_config : Config
  model_data_dir : Option String
  max_epochs : Int
  gpus : Int
  callbacks : List CallbackCfg
  plugin_num_workers : Int
  plugin_use_gpu : Bool
  deriving DecidableEq, Repr

/-- `train_mnist(config, checkpoint_dir, data_dir, num_epochs, num_workers,
use_gpu, callbacks)`: build the model from `config`/`data_dir`, replace a
missing callback list by `[]` (`callbacks = callbacks or []`) and construct
the trainer with `max_epochs=num_epochs`, `gpus=int(use_gpu)` and a
`RayPlugin(num_workers=num_workers, use_gpu=use_gpu)`. -/
def train_mnist (config : Config) (checkpoint_dir : Option String)
    (data_dir : Option String) (num_epochs num_workers : Int)
    (use_gpu : Bool) (callbacks : Option (List CallbackCfg)) : TrainerCall :=
  { model_config := config
    model_data_dir := data_dir
    max_epochs := num_epochs
    gpus := pyBoolInt use_gpu
    callbacks := callbacks.getD []
    plugin_num_workers := num_workers
    plugin_use_gpu := use_gpu }

/-- The `resources_per_trial` dictionary passed to `tune.run`. -/
structure Resources where
  cpu : Int
  gpu : Int
  extra_cpu : Int
  extra_gpu : Int
  deriving DecidableEq, Repr

/-- The arguments of the single `tune.run(...)` call that `tune_mnist`
performs.  `trainable` is the function obtained from
`tune.with_parameters(train_mnist, ...)`: Tune invokes it on each sampled
config (with `checkpoint_dir` left at its default `None`). -/
structure TuneRunCall where
  trainable : Config → TrainerCall
  metric : String
  mode : String
  num_samples : Int
  resources_per_trial : Resources
  name : String

/-- `tune_mnist(data_dir, num_samples, num_epochs, num_workers, use_gpu)`:
bind `data_dir`, the epoch/worker/GPU settings and a
`TuneReportCallback({"loss": ..., "acc": ...}, on="validation_end")` onto
`train_mnist` via `tune.with_parameters`, then call `tune.run` with
`metric="loss"`, `mode="min"`, the given `num_samples`, and per-trial
resources `cpu=1, gpu=int(use_gpu), extra_cpu=num_workers,
extra_gpu=num_workers * int(use_gpu)`. -/
def tune_mnist (data_dir : String) (num_samples num_epochs num_workers : Int)
    (use_gpu : Bool) : TuneRunCall :=
  { trainable := fun config =>
      train_mnist config none (some data_dir) num_epochs num_workers use_gpu
        (some [{ metrics := tuneMetrics, on_event := "validation_end" }])
    metric := "loss"
    mode := "min"
    num_samples := num_samples
    resources_per_trial :=
      { cpu := 1
        gpu := pyBoolInt use_gpu
        extra_cpu := num_workers
        extra_gpu := num_workers * pyBoolInt use_gpu }
    name := "tune_mnist" }

/-- The parsed command-line flags (`argparse` namespace) of the script, with
each field's `argparse` default. -/
structure Args where
  num_workers : Int := 1
  use_gpu : Bool := false
  tune : Bool := false
  num_samples : Int := 10
  num_epochs : Int := 10
  smoke_test : Bool := false
  address : Option String := none
  server_address : Option String := none
  deriving DecidableEq, Repr

/-- `num_epochs = 1 if args.smoke_test else args.num_epochs`. -/
def effNumEpochs (a : Args) : Int := if a.smoke_test then 1 else a.num_epochs

/-- `num_workers = 1 if args.smoke_test else args.num_workers`. -/
def effNumWorkers (a : Args) : Int := if a.smoke_test then 1 else a.num_workers

/-- `use_gpu = False if args.smoke_test else args.use_gpu`. -/
def effUseGpu (a : Args) : Bool := if a.smoke_test then false else a.use_gpu

/-- `num_samples = 1 if args.smoke_test else args.num_samples`. -/
def effNumSamples (a : Args) : Int := if a.smoke_test then 1 else a.num_samples

/-- Python truthiness of an optional string (`None` and `""` are falsy). -/
def optStrTruthy : Option String → Bool
  | none => false
  | some s => !(s == "")

/-- The one Ray-connection call the `__main__` block makes. -/
inductive RayInit where
  | initLocal (num_cpus : Nat)
  | clientConnect (server_address : String)
  | initAddress (address : Option String)
  deriving DecidableEq, Repr

/-- `if args.smoke_test: ray.init(num_cpus=2) elif args.server_address:
ray.util.connect(args.server_address) else: ray.init(address=args.address)`. -/
def rayInitCall (a : Args) : RayInit :=
  if a.smoke_test then .initLocal 2
  else if optStrTruthy a.server_address then
    .clientConnect (a.server_address.getD "")
  else .initAddress a.address

/-- The fixed default config of the non-tune branch:
`{"layer_1": 32, "layer_2": 64, "lr": 1e-1, "batch_size": 32}` (the float
`1e-1` embedded as the rational `1/10`). -/
def defaultConfig : Config :=
  [("layer_1", .int 32), ("layer_2", .int 64),
   ("lr", .float (1/10)), ("batch_size", .int 32)]

/-- `if args.tune: tune_mnist(...) else: train_mnist(config, ...)`: the one
entry call the `__main__` block makes after computing the effective
parameters, as a sum of the two call descriptors. -/
def mainDispatch (a : Args) (data_dir : String) : TuneRunCall ⊕ TrainerCall :=
  if a.tune then
    .inl (tune_mnist data_dir (effNumSamples a) (effNumEpochs a)
      (effNumWorkers a) (effUseGpu a))
  else
    .inr (train_mnist defaultConfig none (some data_dir) (effNumEpochs a)
      (effNumWorkers a) (effUseGpu a) none)

/-- The `num_epochs` value the dispatched call hands to the entry function
(for the tune branch: the value `with_parameters` bound onto `train_mnist`,
visible as the `max_epochs` of any trial's trainer). -/
def passedNumEpochs : TuneRunCall ⊕ TrainerCall → Int
  | .inl t => (t.trainable []).max_epochs
  | .inr tc => tc.max_epochs

/-- `train_mnist` as the straight-line `Except` program it is: each external
library call is an oracle that either returns or raises.  The body performs
`model = MNISTClassifier(...)`, `callbacks = callbacks or []`,
`trainer = pl.Trainer(..., callbacks=callbacks, ...)`, `trainer.fit(model)`
with no `try`/`except` anywhere. -/
def train_mnist_steps {E M T : Type} (mkModel : Except E M)
    (mkTrainer : List CallbackCfg → Except E T)
    (fit : T → M → Except E Unit)
    (callbacks : Option (List CallbackCfg)) : Except E Unit :=
  match mkModel with
  | .error e => .error e
  | .ok model =>
    match mkTrainer (callbacks.getD []) with
    | .error e => .error e
    | .ok trainer => fit trainer model

/-- `tune_mnist` as the straight-line `Except` program it is: after building
the (pure) search space, callback list and bound trainable, it performs
`analysis = tune.run(...)` and then prints `analysis.best_config`, with no
`try`/`except` anywhere. -/
def tune_mnist_steps {E A : Type} (runSearch : Except E A)
    (report : A → Except E Unit) : Except E Unit :=
  match runSearch with
  | .error e => .error e
  | .ok analysis => report analysis

/-- A concrete `randperm` family for evaluating the model on a concrete
input: the generator that always emits the identity permutation. -/
def rpId : Nat → Nat → List Nat := fun _ m => List.range m

/-- The classifier state produced by the default config of the script's
non-tune branch. -/
def cEx : MNISTClassifier :=
  { layer_1 := .int 32, layer_2 := .int 64, lr := .float (1/10),
    data_dir := none, batch_size := .int 32 }

/-- Concrete parsed flags: `--smoke-test` together with `--num-epochs 10`. -/
def smokeArgs : Args := { num_epochs := 10, smoke_test := true }

/-- Concrete parsed flags: every flag left at its default. -/
def plainArgs : Args := {}

/-- A concrete config lacking the `"batch_size"` key. -/
def cfgNoBS : Config :=
  [("layer_1", .int 32), ("layer_2", .int 64), ("lr", .float (1/10))]

theorem dropLastBatches_nil_of_short {α : Type} (bs : Nat) (xs : List α)
    (h : xs.length < bs) : dropLastBatches bs xs = [] := by
  rw [dropLastBatches]
  rw [dif_neg]
  omega

theorem dropLastBatches_cons {α : Type} (bs : Nat) (xs : List α)
    (hb : 0 < bs) (h : bs ≤ xs.length) :
    dropLastBatches bs xs = xs.take bs :: dropLastBatches bs (xs.drop bs) := by
  rw [dropLastBatches]
  rw [dif_pos ⟨hb, h⟩]

theorem dropLastBatches_length {α : Type} (bs : Nat) (hb : 0 < bs) :
    ∀ (n : Nat) (xs : List α), xs.length = n →
      (dropLastBatches bs xs).length = xs.length / bs := by
  intro n
  induction n using Nat.strong_induction_on with
  | _ n ih =>
    intro xs hxs
    by_cases h : bs ≤ xs.length
    · rw [dropLastBatches_cons bs xs hb h, List.length_cons,
        ih (xs.length - bs) (by omega) (xs.drop bs)
          (by simp [List.length_drop]),
        List.length_drop, Nat.div_eq_sub_div hb h]
    · rw [dropLastBatches_nil_of_short bs xs (by omega), List.length_nil,
        Nat.div_eq_of_lt (by omega)]

theorem dropLastBatches_mem_length {α : Type} (bs : Nat) (hb : 0 < bs) :
    ∀ (n : Nat) (xs : List α), xs.length = n →
      ∀ b ∈ dropLastBatches bs xs, b.length = bs := by
  intro n
  induction n using Nat.strong_induction_on with
  | _ n ih =>
    intro xs hxs b hmem
    by_cases h : bs ≤ xs.length
    · rw [dropLastBatches_cons bs xs hb h] at hmem
      rcases List.mem_cons.mp hmem with h1 | h2
      · subst h1
        rw [List.length_take]
        omega
      · exact ih (xs.length - bs) (by omega) (xs.drop bs)
          (by simp [List.length_drop]) b h2
    · rw [dropLastBatches_nil_of_short bs xs (by omega)] at hmem
      exact absurd hmem (List.not_mem_nil b)

theorem dropLastBatches_flatten {α : Type} (bs : Nat) (hb : 0 < bs) :
    ∀ (n : Nat) (xs : List α), xs.length = n →
      (dropLastBatches bs xs).flatten = xs.take (bs * (xs.length / bs)) := by
  intro n
  induction n using Nat.strong_induction_on with
  | _ n ih =>
    intro xs hxs
    by_cases h : bs ≤ xs.length
    · rw [dropLastBatches_cons bs xs hb h, List.flatten_cons,
        ih (xs.length - bs) (by omega) (xs.drop bs)
          (by simp [List.length_drop]),
        List.length_drop]
      have hdiv : xs.length / bs = (xs.length - bs) / bs + 1 :=
        Nat.div_eq_sub_div hb h
      rw [hdiv, Nat.mul_add, Nat.mul_one, Nat.add_comm, List.take_add]
    · rw [dropLastBatches_nil_of_short bs xs (by omega), List.flatten_nil,
        Nat.div_eq_of_lt (by omega), Nat.mul_zero, List.take_zero]

theorem perm_split_facts (p : List Nat) (n : Nat)
    (hp : p.Perm (List.range n)) (hn : 5000 ≤ n) :
    (p.take (n - 5000)).length = n - 5000 ∧
    ((p.drop (n - 5000)).take 5000).length = 5000 ∧
    List.Disjoint (p.take (n - 5000)) ((p.drop (n - 5000)).take 5000) ∧
    (p.take (n - 5000) ++ (p.drop (n - 5000)).take 5000).Perm (List.range n) ∧
    (∀ i, i ∈ (p.drop (n - 5000)).take 5000 ↔
      (i < n ∧ i ∉ p.take (n - 5000))) := by
  have hlen : p.length = n := hp.length_eq.trans (List.length_range n)
  have hval : (p.drop (n - 5000)).take 5000 = p.drop (n - 5000) :=
    List.take_of_length_le (by rw [List.length_drop, hlen]; omega)
  have hnd : p.Nodup := hp.nodup_iff.mpr (List.nodup_range n)
  have hdisj : List.Disjoint (p.take (n - 5000)) (p.drop (n - 5000)) :=
    List.disjoint_take_drop hnd (le_refl _)
  have happ : p.take (n - 5000) ++ p.drop (n - 5000) = p :=
    List.take_append_drop _ p
  refine ⟨?_, ?_, ?_, ?_, ?_⟩
  · rw [List.length_take, hlen]; omega
  · rw [hval, List.length_drop, hlen]; omega
  · rw [hval]; exact hdisj
  · rw [hval, happ]; exact hp
  · intro i
    rw [hval]
    constructor
    · intro hi
      have hip : i ∈ p := by rw [← happ]; exact List.mem_append_right _ hi
      have hir : i ∈ List.range n := hp.subset hip
      exact ⟨List.mem_range.mp hir, fun hit => hdisj hit hi⟩
    · rintro ⟨hin, hnt⟩
      have hip : i ∈ p := hp.symm.subset (List.mem_range.mpr hin)
      rw [← happ] at hip
      rcases List.mem_append.mp hip with h1 | h2
      · exact absurd h1 hnt
      · exact h2

/-- C1: for every dataset of length `n ≥ 5000`, `train_dataloader` wraps the
first component of `random_split(dataset, [n - 5000, 5000])` and
`val_dataloader` the second, so the training subset has exactly `n - 5000`
examples, the validation subset exactly `5000`, and the two are disjoint and
together cover the whole dataset. -/
theorem train_val_split_partition (c : MNISTClassifier)
    (rp : Nat → Nat → List Nat) (n : Nat)
    (hp : (rp 0 n).Perm (List.range n)) (hn : 5000 ≤ n) :
    (c.train_dataloader rp n).dataset_indices =
      (random_split2 (rp 0 n) (n - 5000) 5000).1 ∧
    (c.val_dataloader rp n).dataset_indices =
      (random_split2 (rp 0 n) (n - 5000) 5000).2 ∧
    (c.train_dataloader rp n).dataset_indices.length = n - 5000 ∧
    (c.val_dataloader rp n).dataset_indices.length = 5000 ∧
    List.Disjoint (c.train_dataloader rp n).dataset_indices
      (c.val_dataloader rp n).dataset_indices ∧
    ((c.train_dataloader rp n).dataset_indices ++
      (c.val_dataloader rp n).dataset_indices).Perm (List.range n) := by
  obtain ⟨h1, h2, h3, h4, _⟩ := perm_split_facts (rp 0 n) n hp hn
  simp only [MNISTClassifier.train_dataloader, MNISTClassifier.val_dataloader,
    random_split2]
  exact ⟨trivial, trivial, h1, h2, h3, h4⟩

/-- Witness for C1 at the identity permutation family, `n = 5000`, and the
classifier built from the script's default config. -/
theorem train_val_split_partition_witness :
    (cEx.train_dataloader rpId 5000).dataset_indices.length = 5000 - 5000 ∧
    (cEx.val_dataloader rpId 5000).dataset_indices.length = 5000 :=
  ⟨(train_val_split_partition cEx rpId 5000 (List.Perm.refl _)
      (by decide)).2.2.1,
   (train_val_split_partition cEx rpId 5000 (List.Perm.refl _)
      (by decide)).2.2.2.1⟩

/-- C2: the split is deterministic — every call of either dataloader method
reseeds a fresh generator with 0, so any two calls (on any two classifier
objects over the same dataset) produce the same index split, and the
validation subset is the exact complement of the training subset returned by
a separate `train_dataloader` call. -/
theorem split_deterministic_complement (c c' : MNISTClassifier)
    (rp : Nat → Nat → List Nat) (n : Nat)
    (hp : (rp 0 n).Perm (List.range n)) (hn : 5000 ≤ n) :
    (c.train_dataloader rp n).dataset_indices =
      (c'.train_dataloader rp n).dataset_indices ∧
    (c.val_dataloader rp n).dataset_indices =
      (c'.val_dataloader rp n).dataset_indices ∧
    (∀ i, i ∈ (c.val_dataloader rp n).dataset_indices ↔
      (i < n ∧ i ∉ (c'.train_dataloader rp n).dataset_indices)) := by
  obtain ⟨_, _, _, _, h5⟩ := perm_split_facts (rp 0 n) n hp hn
  simp only [MNISTClassifier.train_dataloader, MNISTClassifier.val_dataloader,
    random_split2]
  exact ⟨trivial, trivial, h5⟩

/-- Witness for C2 at the identity permutation family and `n = 5000`:
index `0` lies in the validation subset and outside the training subset. -/
theorem split_deterministic_complement_witness :
    0 ∈ (cEx.val_dataloader rpId 5000).dataset_indices ↔
      (0 < 5000 ∧ 0 ∉ (cEx.train_dataloader rpId 5000).dataset_indices) :=
  (split_deterministic_complement cEx cEx rpId 5000 (List.Perm.refl _)
    (by decide)).2.2 0

/-- C10: both dataloaders are built with `drop_last=True`, so with batch
size `bs > 0` every yielded batch has exactly `bs` examples, the training
loader yields `(n - 5000) / bs` batches and the validation loader
`5000 / bs`, examples beyond the last full batch are never yielded, and a
subset shorter than `bs` yields no batch at all. -/
theorem drop_last_batching (c : MNISTClassifier)
    (rp : Nat → Nat → List Nat) (n bs : Nat)
    (hp : (rp 0 n).Perm (List.range n)) (hn : 5000 ≤ n) (hbs : 0 < bs)
    (hb : c.batch_size = PyVal.int bs) :
    (c.train_dataloader rp n).drop_last = true ∧
    (c.val_dataloader rp n).drop_last = true ∧
    (c.train_dataloader rp n).batch_size = PyVal.int bs ∧
    (c.val_dataloader rp n).batch_size = PyVal.int bs ∧
    (dropLastBatches bs (c.train_dataloader rp n).dataset_indices).length =
      (n - 5000) / bs ∧
    (dropLastBatches bs (c.val_dataloader rp n).dataset_indices).length =
      5000 / bs ∧
    (∀ b ∈ dropLastBatches bs (c.train_dataloader rp n).dataset_indices,
      b.length = bs) ∧
    (∀ b ∈ dropLastBatches bs (c.val_dataloader rp n).dataset_indices,
      b.length = bs) ∧
    (dropLastBatches bs (c.train_dataloader rp n).dataset_indices).flatten =
      (c.train_dataloader rp n).dataset_indices.take
        (bs * ((n - 5000) / bs)) ∧
    (dropLastBatches bs (c.val_dataloader rp n).dataset_indices).flatten =
      (c.val_dataloader rp n).dataset_indices.take (bs * (5000 / bs)) ∧
    (∀ xs : List Nat, xs.length < bs → dropLastBatches bs xs = []) := by
  obtain ⟨h1, h2, _, _, _⟩ := perm_split_facts (rp 0 n) n hp hn
  have htl : (c.train_dataloader rp n).dataset_indices.length = n - 5000 := by
    simp only [MNISTClassifier.train_dataloader, random_split2]
    exact h1
  have hvl : (c.val_dataloader rp n).dataset_indices.length = 5000 := by
    simp only [MNISTClassifier.val_dataloader, random_split2]
    exact h2
  refine ⟨rfl, rfl, hb, hb, ?_, ?_, ?_, ?_, ?_, ?_, ?_⟩
  · rw [dropLastBatches_length bs hbs _ _ rfl, htl]
  · rw [dropLastBatches_length bs hbs _ _ rfl, hvl]
  · exact dropLastBatches_mem_length bs hbs _ _ rfl
  · exact dropLastBatches_mem_length bs hbs _ _ rfl
  · rw [dropLastBatches_flatten bs hbs _ _ rfl, htl]
  · rw [dropLastBatches_flatten bs hbs _ _ rfl, hvl]
  · intro xs hxs
    exact dropLastBatches_nil_of_short bs xs hxs

/-- Witness for C10 at the identity permutation family, `n = 5064` and
`bs = 32`: the training loader yields `(5064 - 5000) / 32 = 2` batches. -/
theorem drop_last_batching_witness :
    (dropLastBatches 32
      (cEx.train_dataloader rpId 5064).dataset_indices).length =
      (5064 - 5000) / 32 :=
  (drop_last_batching cEx rpId 5064 32 (List.Perm.refl _) (by decide)
    (by decide) rfl).2.2.2.2.1

/-- C3, counterexample: with `--smoke-test --num-epochs 10` the value passed
to `train_mnist` is the forced `1`, not the parsed `10`, so flag values are
NOT always passed unchanged to the entry functions. -/
theorem flag_passthrough_cex :
    passedNumEpochs (mainDispatch smokeArgs "d") ≠ smokeArgs.num_epochs := by
  decide

/-- C3, amended: when `--smoke-test` is absent, each flag's parsed value is
passed unchanged as the corresponding keyword argument of the selected entry
function (`tune_mnist` gets `num_samples`, `num_epochs`, `num_workers`,
`use_gpu`; `train_mnist` gets `num_epochs`, `num_workers`, `use_gpu`), with
no validation or transformation in between. -/
theorem flag_passthrough_no_smoke (a : Args) (d : String)
    (h : a.smoke_test = false) :
    (a.tune = true → mainDispatch a d =
      .inl (tune_mnist d a.num_samples a.num_epochs a.num_workers
        a.use_gpu)) ∧
    (a.tune = false → mainDispatch a d =
      .inr (train_mnist defaultConfig none (some d) a.num_epochs
        a.num_workers a.use_gpu none)) := by
  constructor
  · intro ht
    simp [mainDispatch, effNumSamples, effNumEpochs, effNumWorkers,
      effUseGpu, h, ht]
  · intro ht
    simp [mainDispatch, effNumSamples, effNumEpochs, effNumWorkers,
      effUseGpu, h, ht]

/-- Witness for the amended C3 at the all-default flags (no smoke test,
no tune). -/
theorem flag_passthrough_no_smoke_witness :
    mainDispatch plainArgs "d" =
      .inr (train_mnist defaultConfig none (some "d") plainArgs.num_epochs
        plainArgs.num_workers plainArgs.use_gpu none) :=
  (flag_passthrough_no_smoke plainArgs "d" rfl).2 rfl

/-- C4: with `--smoke-test`, the effective epoch, worker and sample counts
are all forced to `1` and GPU use to `False` regardless of the parsed
values, and Ray is initialised locally with `num_cpus=2` rather than through
`--address` or `--server-address`. -/
theorem smoke_test_forces_params (a : Args) (d : String)
    (h : a.smoke_test = true) :
    rayInitCall a = .initLocal 2 ∧
    (a.tune = true → mainDispatch a d = .inl (tune_mnist d 1 1 1 false)) ∧
    (a.tune = false → mainDispatch a d =
      .inr (train_mnist defaultConfig none (some d) 1 1 false none)) := by
  refine ⟨?_, ?_, ?_⟩
  · simp [rayInitCall, h]
  · intro ht
    simp [mainDispatch, effNumSamples, effNumEpochs, effNumWorkers,
      effUseGpu, h, ht]
  · intro ht
    simp [mainDispatch, effNumSamples, effNumEpochs, effNumWorkers,
      effUseGpu, h, ht]

/-- Witness for C4 at `--smoke-test --num-epochs 10` (with non-default
`--address` irrelevant): Ray is initialised locally and `train_mnist` is
called with all-forced parameters. -/
theorem smoke_test_forces_params_witness :
    rayInitCall smokeArgs = .initLocal 2 ∧
    mainDispatch smokeArgs "d" =
      .inr (train_mnist defaultConfig none (some "d") 1 1 false none) :=
  ⟨(smoke_test_forces_params smokeArgs "d" rfl).1,
   (smoke_test_forces_params smokeArgs "d" rfl).2.2 rfl⟩

/-- C5: for every worker count and GPU flag, `tune_mnist` requests per-trial
resources of exactly `cpu = 1`, `gpu = int(use_gpu)`,
`extra_cpu = num_workers` and `extra_gpu = num_workers * int(use_gpu)`; in
particular `extra_gpu = 0` whenever the GPU flag is off. -/
theorem tune_resources_exact (d : String) (ns ne nw : Int) (g : Bool) :
    (tune_mnist d ns ne nw g).resources_per_trial =
      { cpu := 1, gpu := pyBoolInt g, extra_cpu := nw,
        extra_gpu := nw * pyBoolInt g } ∧
    (g = false → (tune_mnist d ns ne nw g).resources_per_trial.extra_gpu = 0) := by
  refine ⟨rfl, ?_⟩
  rintro rfl
  simp [tune_mnist, pyBoolInt]

/-- Witness for C5 at three workers without GPU: `extra_gpu` is `0`. -/
theorem tune_resources_exact_witness :
    (tune_mnist "d" 10 10 3 false).resources_per_trial.extra_gpu = 0 :=
  (tune_resources_exact "d" 10 10 3 false).2 rfl

/-- C6: the `__main__` block selects exactly one mode: `tune_mnist` exactly
when `--tune` is present, otherwise `train_mnist` with the fixed default
config `{layer_1: 32, layer_2: 64, lr: 1e-1, batch_size: 32}` — never both,
never neither (the dispatch result is one call descriptor, a sum). -/
theorem main_selects_one_mode (a : Args) (d : String) :
    ((mainDispatch a d).isLeft = a.tune) ∧
    (a.tune = true → mainDispatch a d =
      .inl (tune_mnist d (effNumSamples a) (effNumEpochs a)
        (effNumWorkers a) (effUseGpu a))) ∧
    (a.tune = false → mainDispatch a d =
      .inr (train_mnist defaultConfig none (some d) (effNumEpochs a)
        (effNumWorkers a) (effUseGpu a) none)) := by
  refine ⟨?_, ?_, ?_⟩
  · by_cases ht : a.tune <;> simp [mainDispatch, ht]
  · intro ht
    simp [mainDispatch, ht]
  · intro ht
    simp [mainDispatch, ht]

/-- Witness for C6 at the all-default flags: the non-tune branch runs
`train_mnist` on the default config. -/
theorem main_selects_one_mode_witness :
    (mainDispatch plainArgs "d").isLeft = plainArgs.tune ∧
    mainDispatch plainArgs "d" =
      .inr (train_mnist defaultConfig none (some "d")
        (effNumEpochs plainArgs) (effNumWorkers plainArgs)
        (effUseGpu plainArgs) none) :=
  ⟨(main_selects_one_mode plainArgs "d").1,
   (main_selects_one_mode plainArgs "d").2.2 rfl⟩

/-- C7: the trainable handed to `tune.run` is `train_mnist` itself with
`data_dir`, `num_epochs`, `num_workers`, `use_gpu` and a
`TuneReportCallback({"loss": "ptl/val_loss", "acc": "ptl/val_accuracy"},
on="validation_end")` bound as parameters, and the search minimises the
metric `"loss"` over `num_samples` trials. -/
theorem tune_wraps_train_mnist (d : String) (ns ne nw : Int) (g : Bool) :
    (tune_mnist d ns ne nw g).trainable = (fun config =>
      train_mnist config none (some d) ne nw g
        (some [{ metrics := tuneMetrics, on_event := "validation_end" }])) ∧
    (tune_mnist d ns ne nw g).metric = "loss" ∧
    (tune_mnist d ns ne nw g).mode = "min" ∧
    (tune_mnist d ns ne nw g).num_samples = ns ∧
    (∀ config, ((tune_mnist d ns ne nw g).trainable config).callbacks =
      [{ metrics := tuneMetrics, on_event := "validation_end" }]) :=
  ⟨rfl, rfl, rfl, rfl, fun _ => rfl⟩

/-- C8: neither `train_mnist` nor `tune_mnist` contains any exception
handling: whichever library call fails first (model construction, trainer
construction, `trainer.fit`, `tune.run`, reporting), its error is the
result, unchanged; and when a stage succeeds the program just continues into
the next library call. -/
theorem failures_propagate {E M T A : Type} (mkModel : Except E M)
    (mkTrainer : List CallbackCfg → Except E T)
    (fit : T → M → Except E Unit) (cbs : Option (List CallbackCfg))
    (runSearch : Except E A) (report : A → Except E Unit) (e : E) :
    (mkModel = .error e →
      train_mnist_steps mkModel mkTrainer fit cbs = .error e) ∧
    (∀ m, mkModel = .ok m → mkTrainer (cbs.getD []) = .error e →
      train_mnist_steps mkModel mkTrainer fit cbs = .error e) ∧
    (∀ m t, mkModel = .ok m → mkTrainer (cbs.getD []) = .ok t →
      train_mnist_steps mkModel mkTrainer fit cbs = fit t m) ∧
    (runSearch = .error e → tune_mnist_steps runSearch report = .error e) ∧
    (∀ a, runSearch = .ok a → tune_mnist_steps runSearch report = report a) := by
  refine ⟨?_, ?_, ?_, ?_, ?_⟩
  · intro h
    simp [train_mnist_steps, h]
  · intro m h1 h2
    simp [train_mnist_steps, h1, h2]
  · intro m t h1 h2
    simp [train_mnist_steps, h1, h2]
  · intro h
    simp [tune_mnist_steps, h]
  · intro a h
    simp [tune_mnist_steps, h]

/-- Witness for C8: a failing model construction surfaces unchanged from
`train_mnist`, and a failing `tune.run` surfaces unchanged from
`tune_mnist`. -/
theorem failures_propagate_witness :
    train_mnist_steps (Except.error "model boom" : Except String Unit)
      (fun _ => Except.ok ()) (fun _ _ => Except.ok ()) none =
      Except.error "model boom" ∧
    tune_mnist_steps (Except.error "run boom" : Except String Unit)
      (fun _ => Except.ok ()) = Except.error "run boom" :=
  ⟨(failures_propagate (Except.error "model boom" : Except String Unit)
      (fun _ => Except.ok ()) (fun _ _ => Except.ok ()) none
      (Except.ok ()) (fun _ => Except.ok ()) "model boom").1 rfl,
   (failures_propagate (Except.ok () : Except String Unit)
      (fun _ => Except.ok ()) (fun _ _ => Except.ok ()) none
      (Except.error "run boom" : Except String Unit)
      (fun _ => Except.ok ()) "run boom").2.2.2.1 rfl⟩

/-- C9: `MNISTClassifier.__init__` raises a `KeyError` whenever the config
lacks the `"batch_size"` key; when construction succeeds, the stored
`batch_size` is exactly `config["batch_size"]` and both dataloaders use it
as their `DataLoader` batch size. -/
theorem batch_size_key_semantics (config : Config) (d : Option String) :
    (config.getItem "batch_size" = .error "batch_size" →
      ∃ k, MNISTClassifier.init config d = .error k) ∧
    (∀ c : MNISTClassifier, MNISTClassifier.init config d = .ok c →
      config.getItem "batch_size" = .ok c.batch_size ∧
      ∀ (rp : Nat → Nat → List Nat) (n : Nat),
        (c.train_dataloader rp n).batch_size = c.batch_size ∧
        (c.val_dataloader rp n).batch_size = c.batch_size) := by
  constructor
  · intro hmiss
    rw [MNISTClassifier.init]
    rcases hs : superInit config d with k | v
    · exact ⟨k, rfl⟩
    · obtain ⟨l1, l2, lr⟩ := v
      rw [hmiss]
      exact ⟨"batch_size", rfl⟩
  · intro c hc
    rw [MNISTClassifier.init] at hc
    rcases hs : superInit config d with k | v
    · rw [hs] at hc
      exact absurd hc (by simp)
    · obtain ⟨l1, l2, lr⟩ := v
      rw [hs] at hc
      rcases hg : config.getItem "batch_size" with k | bs
      · rw [hg] at hc
        exact absurd hc (by simp)
      · rw [hg] at hc
        have hcval := Except.ok.inj hc
        subst hcval
        exact ⟨rfl, fun rp n => ⟨rfl, rfl⟩⟩

/-- Witness for C9: a config missing `"batch_size"` makes `__init__` raise,
and on the script's default config the stored batch size is the looked-up
value `32`. -/
theorem batch_size_key_semantics_witness :
    (∃ k, MNISTClassifier.init cfgNoBS none = Except.error k) ∧
    defaultConfig.getItem "batch_size" = Except.ok cEx.batch_size :=
  ⟨(batch_size_key_semantics cfgNoBS none).1 rfl,
   ((batch_size_key_semantics defaultConfig none).2 cEx rfl).1⟩
